import Mathlib

/-!
Verification development for the weboutlook scraper (src/weboutlook/scraper.py).

The Python module is shallowly embedded here.  Pure helpers become Lean
functions; the mutable `OutlookWebScraper` object becomes a record that every
operation threads explicitly; the mechanize browser collaborator becomes a
deterministic environment `Env` mapping URLs to pages; Python exceptions become
an explicit `Err` sum returned through `Except`.  Each top-level operation also
returns the list of network requests it issued, so that request-counting
properties can be stated.

The source calls its cache helpers (`find_in_cache`, `add_to_cache`,
`remove_from_cache`) without the instance qualifier.  Following the design
document, which records this as a latent slip and fixes the documented intent
(instance-bound cache helpers) as the source of truth, the embedding binds
those calls to the scraper instance.  All other behavior is translated
directly from the source, including Python truthiness tests (`if payload:`,
`if message_urls:`, `if cache:`), substring tests (`in`), dictionary
`KeyError` on `del` of a missing key, and `[0]` `IndexError` on an empty list.
-/

/-- Boolean list-prefix test, mirroring the comparisons done character by
character when Python evaluates `needle in hay` at one position. -/
def isPrefixB : List Char → List Char → Bool
  | [], _ => true
  | _ :: _, [] => false
  | a :: as, b :: bs => a == b && isPrefixB as bs

/-- Boolean substring-at-any-position test over char lists. -/
def isInfixB (needle : List Char) : List Char → Bool
  | [] => isPrefixB needle []
  | c :: rest => isPrefixB needle (c :: rest) || isInfixB needle rest

/-- Python `needle in hay` for strings: substring containment. -/
def strContains (hay needle : String) : Bool :=
  isInfixB needle.data hay.data

/-- Helper for Python `str.replace` with an empty pattern: the replacement is
inserted before every character and at the end. -/
def interleaveNew (new : List Char) : List Char → List Char
  | [] => new
  | c :: rest => new ++ c :: interleaveNew new rest

/-- Helper for Python `str.replace` with a non-empty pattern: scan left to
right, emit the replacement at each match and then consume the rest of the
matched pattern (the `skip` counter), so occurrences are replaced leftmost
and non-overlapping. -/
def replaceScan (old new : List Char) : Nat → List Char → List Char
  | _, [] => []
  | Nat.succ skip, _ :: rest => replaceScan old new skip rest
  | 0, c :: rest =>
    if isPrefixB old (c :: rest) then new ++ replaceScan old new (old.length - 1) rest
    else c :: replaceScan old new 0 rest

/-- Python `s.replace(old, new)`: replace all occurrences of `old` by `new`
(with CPython's behavior for an empty `old`). -/
def pyReplace (s old new : String) : String :=
  match old.data with
  | [] => ⟨interleaveNew new.data s.data⟩
  | _ :: _ => ⟨replaceScan old.data new.data 0 s.data⟩

/-- Models `urllib.quote` for the folder names exercised here: spaces become
`%20`, the remaining characters used (letters, digits, slash) are unchanged. -/
def quoteChar (c : Char) : List Char :=
  if c = ' ' then ['%', '2', '0'] else [c]

/-- Models `urllib.quote` applied to a folder name. -/
def quote (s : String) : String :=
  ⟨(s.data.map quoteChar).flatten⟩

/-- Models `urlparse.urljoin(domain, rel)` for a domain ending in a slash,
which is the shape used by `login` (`urljoin(self.domain, 'exchange/')`). -/
def urljoin (base rel : String) : String := base ++ rel

/-- Lookup in a Python dict modelled as an association list. -/
def dictFind {β : Type} : List (String × β) → String → Option β
  | [], _ => none
  | (k1, v) :: rest, k => if k1 = k then some v else dictFind rest k

/-- Python `d[k] = v`: overwrite an existing key in place, else append. -/
def dictInsert {β : Type} : List (String × β) → String → β → List (String × β)
  | [], k, v => [(k, v)]
  | (k1, v1) :: rest, k, v =>
    if k1 = k then (k, v) :: rest else (k1, v1) :: dictInsert rest k v

/-- Python `del d[k]` once the key is known to be present: drop the key.
(A Python dict holds each key at most once, so dropping every occurrence in
the association list models it; the `KeyError` on an absent key is handled at
the call sites that do an unchecked `del`.) -/
def dictErase {β : Type} : List (String × β) → String → List (String × β)
  | [], _ => []
  | (k1, v1) :: rest, k =>
    if k1 = k then dictErase rest k else (k1, v1) :: dictErase rest k

/-- Exceptions that the embedded code can raise. -/
inductive Err where
  | invalidLogin
  | retrievalError
  | keyError
  | indexError
  | typeError
  | stopIteration
  | fuelExhausted
deriving DecidableEq

/-- A hyperlink as seen through mechanize: its target, its text, and the
resolved base URL of the page it came from. -/
structure Link where
  url : String
  text : String
  base_url : Option String
deriving DecidableEq

/-- A fetched page: its hyperlinks and its body text. -/
structure Page where
  links : List Link
  body : String
deriving DecidableEq

/-- The browser/network collaborator, abstracted as a deterministic
environment: the page produced by the login form submission, the page served
for each GET, and the page served for each POST. -/
structure Env where
  loginResponse : Page
  openPage : String → Page
  post : String → Page

/-- A network request issued through the browser. -/
inductive Req where
  | openUrl (url : String)
  | formSubmit
  | postUrl (url : String)
deriving DecidableEq

/-- The scraper object state: credentials, session flags, and both caches. -/
structure OutlookWebScraper where
  domain : String
  username : String
  password : String
  is_logged_in : Bool
  base_href : Option String
  folder_cache : List (String × List String)
  message_cache : List (String × String)
deriving DecidableEq

/-- `OutlookWebScraper.__init__`. -/
def mkScraper (domain username password : String) : OutlookWebScraper :=
  { domain := domain, username := username, password := password,
    is_logged_in := false, base_href := none,
    folder_cache := [], message_cache := [] }

/-- Python truthiness of an optional-string keyword argument:
`None` and the empty string are falsy. -/
def optTruthy : Option String → Bool
  | none => false
  | some s => if s = "" then false else true

/-- The value returned by `find_in_cache`: a message payload, a folder
listing, the literal `False`, or the implicit `None` fall-through. -/
inductive CacheVal where
  | msg (payload : String)
  | folder (urls : List String)
  | falseVal
  | noneVal
deriving DecidableEq

/-- Python truthiness of a `find_in_cache` result. -/
def cacheTruthy : CacheVal → Bool
  | .msg p => if p = "" then false else true
  | .folder l => if l = [] then false else true
  | .falseVal => false
  | .noneVal => false

/-- The folder-lookup tail of `find_in_cache` (the `if folder_name:` block
with its `else: return False`, falling through to `None` on a miss). -/
def findFolderStep (s : OutlookWebScraper) (folder_name : Option String) : CacheVal :=
  if optTruthy folder_name then
    match dictFind s.folder_cache (folder_name.getD "") with
    | some l => CacheVal.folder l
    | none => CacheVal.noneVal
  else CacheVal.falseVal

/-- `find_in_cache(folder_name, msgid)`. -/
def find_in_cache (s : OutlookWebScraper) (folder_name msgid : Option String) : CacheVal :=
  if optTruthy msgid then
    match dictFind s.message_cache (msgid.getD "") with
    | some p => CacheVal.msg p
    | none => findFolderStep s folder_name
  else findFolderStep s folder_name

/-- `add_to_cache(folder_name, message_urls, msgid, payload)` (the returned
cache value is unused at every call site and is omitted). -/
def add_to_cache (s : OutlookWebScraper) (folder_name : Option String)
    (message_urls : Option (List String)) (msgid payload : Option String) :
    OutlookWebScraper :=
  if optTruthy folder_name then
    { s with folder_cache :=
        dictInsert s.folder_cache (folder_name.getD "") (message_urls.getD []) }
  else if optTruthy msgid then
    { s with message_cache :=
        dictInsert s.message_cache (msgid.getD "") (payload.getD "") }
  else s

/-- The `for id in cache: del self.message_cache[id]` loop of
`remove_from_cache`: an unchecked `del`, so an absent id raises `KeyError`. -/
def delAllMsgs : List (String × String) → List String → Except Err (List (String × String))
  | mc, [] => Except.ok mc
  | mc, id :: rest =>
    match dictFind mc id with
    | none => Except.error Err.keyError
    | some _ => delAllMsgs (dictErase mc id) rest

/-- The folder branch of `remove_from_cache`. -/
def removeFolderStep (s : OutlookWebScraper) (folder_name : Option String) :
    Except Err (Bool × OutlookWebScraper) :=
  if optTruthy folder_name then
    match find_in_cache s folder_name none with
    | CacheVal.folder l =>
      if l = [] then Except.ok (false, s)
      else
        match delAllMsgs s.message_cache l with
        | Except.error e => Except.error e
        | Except.ok mc =>
          Except.ok (true,
            { s with folder_cache := dictErase s.folder_cache (folder_name.getD ""),
                     message_cache := mc })
    | _ => Except.ok (false, s)
  else Except.ok (false, s)

/-- `remove_from_cache(folder_name, msgid)`. -/
def remove_from_cache (s : OutlookWebScraper) (folder_name msgid : Option String) :
    Except Err (Bool × OutlookWebScraper) :=
  if optTruthy msgid then
    if cacheTruthy (find_in_cache s none msgid) then
      let s1 : OutlookWebScraper :=
        { s with message_cache := dictErase s.message_cache (msgid.getD "") }
      if optTruthy folder_name then removeFolderStep s1 folder_name
      else Except.ok (true, s1)
    else
      if optTruthy folder_name then removeFolderStep s folder_name
      else Except.ok (false, s)
  else
    if optTruthy folder_name then removeFolderStep s folder_name
    else Except.ok (false, s)

/-- `flush_cache()`. -/
def flush_cache (s : OutlookWebScraper) : Bool × OutlookWebScraper :=
  (true, { s with folder_cache := [], message_cache := [] })

/-- The failure marker the login code searches the post-login page for. -/
def loginFailMarker : String := "You could not be logged on to Outlook Web Access"

/-- The marker `get_folder` searches for to decide the folder has one page. -/
def singlePageMarker : String := "&nbsp;of&nbsp;1"

/-- `login()`.  The mechanics of opening the mailbox URL, selecting the logon
form and submitting the credentials are delegated to the collaborator; the
page that results from the submission is `env.loginResponse`. -/
def login (env : Env) (s : OutlookWebScraper) :
    Except Err Unit × OutlookWebScraper × List Req :=
  let destination := urljoin s.domain "exchange/"
  let tr : List Req := [Req.openUrl destination, Req.formSubmit]
  if strContains env.loginResponse.body loginFailMarker then
    (Except.error Err.invalidLogin, s, tr)
  else
    match env.loginResponse.links with
    | [] => (Except.error Err.stopIteration, s, tr)
    | m :: _ =>
      if optTruthy m.base_url then
        (Except.ok (), { s with base_href := m.base_url, is_logged_in := true }, tr)
      else
        (Except.error Err.retrievalError, s, tr)

/-- The `.EML` link extraction done on the first listing page:
`[link.url for link in browser.links() if '.EML' in link.url]`. -/
def emlUrls (page : Page) : List String :=
  (page.links.filter (fun l => strContains l.url ".EML")).map (fun l => l.url)

/-- The `.EML` link extraction done on subsequent listing pages, which also
strips the base href from each url:
`[(link.url).replace((self.base_href), '') for link in browser.links() if '.EML' in link.url]`. -/
def emlUrlsStripped (base : String) (page : Page) : List String :=
  (page.links.filter (fun l => strContains l.url ".EML")).map
    (fun l => pyReplace l.url base "")

/-- The next-page link extraction:
`[link.url for link in browser.links() if 'Next Page' in link.text]`. -/
def nextPageUrls (page : Page) : List String :=
  (page.links.filter (fun l => strContains l.text "Next Page")).map (fun l => l.url)

/-- The `while flag:` pagination loop of `get_folder`.  `cur` is the page the
browser currently shows, `last` is `last_message_urls`, `acc` is the
accumulated `message_urls`.  The loop body indexes the next-page link list
with `[0]` (an `IndexError` when empty), opens it, extracts the stripped
`.EML` urls, clears the flag when they equal the previous page, and always
extends the accumulator before re-testing the flag.  The Python loop has no
intrinsic bound, so the embedding carries fuel; every claim is stated with
enough fuel that the fuel case is never the one exercised. -/
def pageLoop (env : Env) (base : String) :
    Nat → Page → List String → List String → Except Err (List String) × List Req
  | 0, _, _, _ => (Except.error Err.fuelExhausted, [])
  | fuel + 1, cur, last, acc =>
    match nextPageUrls cur with
    | [] => (Except.error Err.indexError, [])
    | next_url :: _ =>
      let page := env.openPage next_url
      let murls := emlUrlsStripped base page
      let acc2 := acc ++ murls
      if murls = last then (Except.ok acc2, [Req.openUrl next_url])
      else
        match pageLoop env base fuel page murls acc2 with
        | (r, tr2) => (r, Req.openUrl next_url :: tr2)

/-- The folder listing URL built by `get_folder`:
`self.base_href + urllib.quote(folder_name) + '/?Cmd=contents'`. -/
def listingUrl (b folder_name : String) : String :=
  b ++ quote folder_name ++ "/?Cmd=contents"

/-- The login-if-needed preamble shared by `get_folder`, `get_message` and
`delete_message`: `if not self.is_logged_in: self.login()`. -/
def ensureLogin (env : Env) (s : OutlookWebScraper) :
    Except Err Unit × OutlookWebScraper × List Req :=
  if s.is_logged_in then (Except.ok (), s, []) else login env s

/-- The network part of `get_folder`, entered when the cache was not used or
missed: ensure a session, open the listing page, extract the first page of
`.EML` urls, return them at once when the page says `&nbsp;of&nbsp;1`, and
otherwise run the pagination loop; on full success the result is stored in
the folder cache.  `self.base_href + ...` with an unset base href would be a
Python `TypeError`, modelled by `Err.typeError`. -/
def get_folder_fetch (env : Env) (fuel : Nat) (s : OutlookWebScraper)
    (folder_name : String) : Except Err (List String) × OutlookWebScraper × List Req :=
  match ensureLogin env s with
  | (Except.error e, s1, tr) => (Except.error e, s1, tr)
  | (Except.ok _, s1, tr) =>
    match s1.base_href with
    | none => (Except.error Err.typeError, s1, tr)
    | some b =>
      let url := listingUrl b folder_name
      let page := env.openPage url
      let message_urls := emlUrls page
      if strContains page.body singlePageMarker then
        (Except.ok message_urls,
         add_to_cache s1 (some folder_name) (some message_urls) none none,
         tr ++ [Req.openUrl url])
      else
        match pageLoop env b fuel page message_urls message_urls with
        | (Except.error e, tr2) => (Except.error e, s1, tr ++ Req.openUrl url :: tr2)
        | (Except.ok urls, tr2) =>
          (Except.ok urls,
           add_to_cache s1 (some folder_name) (some urls) none none,
           tr ++ Req.openUrl url :: tr2)

/-- `get_folder(folder_name, refresh)`.  With `refresh` unset it first
consults the cache and returns the cached listing when that value is truthy
(a non-empty list). -/
def get_folder (env : Env) (fuel : Nat) (s : OutlookWebScraper)
    (folder_name : String) (refresh : Bool) :
    Except Err (List String) × OutlookWebScraper × List Req :=
  if refresh then get_folder_fetch env fuel s folder_name
  else
    match find_in_cache s (some folder_name) none with
    | CacheVal.folder l =>
      if l = [] then get_folder_fetch env fuel s folder_name
      else (Except.ok l, s, [])
    | _ => get_folder_fetch env fuel s folder_name

/-- `inbox(refresh)`. -/
def inbox (env : Env) (fuel : Nat) (s : OutlookWebScraper) (refresh : Bool) :
    Except Err (List String) × OutlookWebScraper × List Req :=
  if refresh then get_folder env fuel s "Inbox" true
  else get_folder env fuel s "Inbox" false

/-- The network part of `get_message`, entered when the cached payload was
not truthy. -/
def get_message_fetch (env : Env) (s : OutlookWebScraper) (msgid : String) :
    Except Err String × OutlookWebScraper × List Req :=
  match ensureLogin env s with
  | (Except.error e, s1, tr) => (Except.error e, s1, tr)
  | (Except.ok _, s1, tr) =>
    match s1.base_href with
    | none => (Except.error Err.typeError, s1, tr)
    | some b =>
      let url := b ++ msgid ++ "?Cmd=body"
      let payload := (env.openPage url).body
      (Except.ok payload,
       add_to_cache s1 none none (some msgid) (some payload),
       tr ++ [Req.openUrl url])

/-- `get_message(msgid)`: serve a truthy cached payload without any network
interaction, otherwise fetch (with the Translate header) and cache. -/
def get_message (env : Env) (s : OutlookWebScraper) (msgid : String) :
    Except Err String × OutlookWebScraper × List Req :=
  match find_in_cache s none (some msgid) with
  | CacheVal.msg p =>
    if p = "" then get_message_fetch env s msgid
    else (Except.ok p, s, [])
  | _ => get_message_fetch env s msgid

/-- `delete_message(msgid)`: ensure a session, strip a trailing
`?Cmd=open` from the id, POST the delete command, then call
`remove_from_cache(msgid=msgid)` and return the raw server response. -/
def delete_message (env : Env) (s : OutlookWebScraper) (msgid : String) :
    Except Err String × OutlookWebScraper × List Req :=
  match ensureLogin env s with
  | (Except.error e, s1, tr) => (Except.error e, s1, tr)
  | (Except.ok _, s1, tr) =>
    let m := pyReplace msgid "?Cmd=open" ""
    match s1.base_href with
    | none => (Except.error Err.typeError, s1, tr)
    | some b =>
      let url := b ++ m
      let body := (env.post url).body
      match remove_from_cache s1 none (some m) with
      | Except.error e => (Except.error e, s1, tr ++ [Req.postUrl url])
      | Except.ok (_, s2) => (Except.ok body, s2, tr ++ [Req.postUrl url])

/-- An empty page, served by the stub environments for unused URLs. -/
def emptyPage : Page := { links := [], body := "" }

/-- A stub environment serving a fixed URL-to-page table. -/
def mkEnv (table : List (String × Page)) : Env :=
  { loginResponse := emptyPage,
    openPage := fun u => (dictFind table u).getD emptyPage,
    post := fun u => (dictFind table u).getD emptyPage }

/-- A message link as served by a listing page. -/
def emlLink (u : String) : Link := { url := u, text := "msg", base_url := none }

/-- A next-page link as served by a listing page. -/
def nextLink (u : String) : Link := { url := u, text := "Next Page", base_url := none }

/-- First listing page of the three-page stub folder. -/
def pagePg1 : Page :=
  { links := [emlLink "/f/a1.EML", emlLink "/f/a2.EML", nextLink "n2"],
    body := "1&nbsp;of&nbsp;3" }

/-- Second listing page of the three-page stub folder. -/
def pagePg2 : Page := { links := [emlLink "/f/b1.EML", nextLink "n3"], body := "2&nbsp;of&nbsp;3" }

/-- Third and last listing page of the three-page stub folder; its next-page
link points at `n4`, for which the stub server (like the real one on an
out-of-range request) serves this same last page again. -/
def pagePg3 : Page := { links := [emlLink "/f/c1.EML", nextLink "n4"], body := "3&nbsp;of&nbsp;3" }

/-- Stub collaborator serving folder `F` as pages P1, P2, P3, then P3 again
for the out-of-range request. -/
def envPag : Env :=
  mkEnv [(listingUrl "B/" "F", pagePg1), ("n2", pagePg2), ("n3", pagePg3), ("n4", pagePg3)]

/-- A scraper that has already logged in, with base href `B/` and empty caches. -/
def sLogged : OutlookWebScraper :=
  { mkScraper "d/" "u" "pw" with is_logged_in := true, base_href := some "B/" }

/-- C1: against the stub serving P1, P2, P3, P3 for folder `F`, `get_folder`
does make exactly 3 next-page requests and stops after detecting the repeat,
but the repeated page is NOT discarded: the returned (and cached) listing is
P1 ++ P2 ++ P3 ++ P3, not the deduplicated concatenation P1 ++ P2 ++ P3,
because the loop body extends the accumulator even in the iteration that
detects the repeat. -/
theorem get_folder_repeat_page_appended :
    get_folder envPag 10 sLogged "F" false =
      (Except.ok ["/f/a1.EML", "/f/a2.EML", "/f/b1.EML", "/f/c1.EML", "/f/c1.EML"],
       { sLogged with folder_cache :=
           [("F", ["/f/a1.EML", "/f/a2.EML", "/f/b1.EML", "/f/c1.EML", "/f/c1.EML"])] },
       [Req.openUrl "B/F/?Cmd=contents", Req.openUrl "n2", Req.openUrl "n3",
        Req.openUrl "n4"])
    ∧ (["/f/a1.EML", "/f/a2.EML", "/f/b1.EML", "/f/c1.EML", "/f/c1.EML"] : List String) ≠
        ["/f/a1.EML", "/f/a2.EML", "/f/b1.EML", "/f/c1.EML"] :=
  ⟨by rfl, by decide⟩

/-- A stub environment with an empty page table: no URL serves any content. -/
def envEmpty : Env := mkEnv []

/-- Helper: a cached non-empty folder listing is served directly by
`get_folder` with `refresh` unset — same state, no requests. -/
theorem get_folder_hit_aux (env : Env) (fuel : Nat) (s : OutlookWebScraper)
    (name : String) (l : List String) (hn : name ≠ "")
    (hf : dictFind s.folder_cache name = some l) (hl : l ≠ []) :
    get_folder env fuel s name false = (Except.ok l, s, []) := by
  simp [get_folder, find_in_cache, findFolderStep, optTruthy, hn, hf, hl]

/-- C3 (amended): for a folder name whose cached listing is non-empty,
`get_folder(name, refresh=false)` returns the cached sequence unchanged,
leaves the scraper untouched and performs no network request.  (A cached
EMPTY listing does not enjoy this: see the counterexample.) -/
theorem get_folder_cached_nonempty_served (env : Env) (fuel : Nat)
    (s : OutlookWebScraper) (name : String) (l : List String) (hn : name ≠ "")
    (hf : dictFind s.folder_cache name = some l) (hl : l ≠ []) :
    get_folder env fuel s name false = (Except.ok l, s, []) :=
  get_folder_hit_aux env fuel s name l hn hf hl

/-- A logged-in scraper whose cache records folder `Inbox` with one message. -/
def sInboxCached : OutlookWebScraper :=
  { sLogged with folder_cache := [("Inbox", ["/Inbox/x.EML"])] }

/-- Witness for C3 (amended) at a concrete cached folder. -/
theorem get_folder_cached_nonempty_served_witness :
    get_folder envEmpty 0 sInboxCached "Inbox" false =
      (Except.ok ["/Inbox/x.EML"], sInboxCached, []) :=
  get_folder_cached_nonempty_served envEmpty 0 sInboxCached "Inbox" ["/Inbox/x.EML"]
    (by decide) (by rfl) (by decide)

/-- The listing page of a folder with zero messages: a single-page indicator
and no message links. -/
def pageEmptyFolder : Page := { links := [], body := "0&nbsp;of&nbsp;1" }

/-- A logged-in scraper whose cache records folder `E` with an empty listing,
exactly as a successful fetch of an empty folder stores it. -/
def sEmptyCached : OutlookWebScraper :=
  { sLogged with folder_cache := [("E", [])] }

/-- Stub environment serving the empty folder `E`. -/
def envEmptyFolder : Env := mkEnv [(listingUrl "B/" "E", pageEmptyFolder)]

/-- C3 counterexample: folder `E` was fetched successfully and its empty
listing cached, yet `get_folder("E", refresh=false)` performs a network
request (the cached empty list is falsy, so the cache hit is discarded),
contradicting the claim that no network request at all is made. -/
theorem get_folder_cached_empty_refetches_cex :
    get_folder envEmptyFolder 5 sEmptyCached "E" false =
      (Except.ok [], sEmptyCached, [Req.openUrl "B/E/?Cmd=contents"]) ∧
    ([Req.openUrl "B/E/?Cmd=contents"] : List Req) ≠ [] :=
  ⟨by rfl, by decide⟩

/-- C2 (amended): `delete_message` removes a (truthy-)cached id from the
message cache, but performs NO folder-cache invalidation: every cached folder
listing survives unchanged, and a subsequent `get_folder(f, refresh=false)`
for a folder whose cached listing contains the deleted id still returns that
stale listing from cache, without any network refresh. -/
theorem delete_message_keeps_folder_cache (env : Env) (fuel : Nat)
    (s : OutlookWebScraper) (m p f b : String) (l : List String)
    (hli : s.is_logged_in = true) (hb : s.base_href = some b)
    (hnorm : pyReplace m "?Cmd=open" "" = m) (hm : m ≠ "")
    (hp : dictFind s.message_cache m = some p) (hpne : p ≠ "")
    (hf : dictFind s.folder_cache f = some l) (hfn : f ≠ "") (hl : l ≠ [])
    (hmem : m ∈ l) :
    delete_message env s m =
      (Except.ok (env.post (b ++ m)).body,
       { s with message_cache := dictErase s.message_cache m },
       [Req.postUrl (b ++ m)]) ∧
    get_folder env fuel { s with message_cache := dictErase s.message_cache m } f false =
      (Except.ok l, { s with message_cache := dictErase s.message_cache m }, []) ∧
    m ∈ l := by
  refine ⟨?_, ?_, hmem⟩
  · simp [delete_message, ensureLogin, hli, hb, hnorm, remove_from_cache,
      find_in_cache, optTruthy, cacheTruthy, hm, hp, hpne]
  · exact get_folder_hit_aux env fuel _ f l hfn hf hl

/-- A logged-in scraper with one cached message and a cached folder listing
containing that message. -/
def sDel : OutlookWebScraper :=
  { sLogged with message_cache := [("/f/m1.EML", "raw")],
                 folder_cache := [("F", ["/f/m1.EML"])] }

/-- Witness for C2 (amended) at a concrete state. -/
theorem delete_message_keeps_folder_cache_witness :
    delete_message envEmpty sDel "/f/m1.EML" =
      (Except.ok (envEmpty.post ("B/" ++ "/f/m1.EML")).body,
       { sDel with message_cache := dictErase sDel.message_cache "/f/m1.EML" },
       [Req.postUrl ("B/" ++ "/f/m1.EML")]) :=
  (delete_message_keeps_folder_cache envEmpty 1 sDel "/f/m1.EML" "raw" "F" "B/"
    ["/f/m1.EML"] (by rfl) (by rfl) (by rfl) (by decide) (by rfl) (by decide)
    (by rfl) (by decide) (by decide) (by decide)).1

/-- C2 counterexample: after `delete_message` removes `/f/m1.EML`, the id is
gone from the message cache, yet `get_folder("F", refresh=false)` is served
from the surviving cache entry — zero network requests — and still returns
the listing containing the deleted id.  The cached folder listing was neither
invalidated nor pruned. -/
theorem delete_message_stale_listing_cex :
    dictFind (delete_message envEmpty sDel "/f/m1.EML").2.1.message_cache "/f/m1.EML"
        = none ∧
    get_folder envEmpty 5 (delete_message envEmpty sDel "/f/m1.EML").2.1 "F" false =
      (Except.ok ["/f/m1.EML"], (delete_message envEmpty sDel "/f/m1.EML").2.1, []) :=
  ⟨by rfl, by rfl⟩

/-- C4 (amended): whenever the first listing page's body contains the
substring `&nbsp;of&nbsp;1`, `get_folder` returns exactly that first page's
message ids, caches them, and performs zero next-page requests.  This covers
the indicator saying exactly one page, but the substring also matches
indicators such as `1 of 10`, so pagination starts only when the body lacks
the substring — not exactly when the indicator says more than one page. -/
theorem get_folder_marker_single_page (env : Env) (fuel : Nat)
    (s : OutlookWebScraper) (name b : String)
    (hli : s.is_logged_in = true) (hb : s.base_href = some b)
    (hmiss : dictFind s.folder_cache name = none)
    (hmark : strContains (env.openPage (listingUrl b name)).body singlePageMarker = true) :
    get_folder env fuel s name false =
      (Except.ok (emlUrls (env.openPage (listingUrl b name))),
       add_to_cache s (some name) (some (emlUrls (env.openPage (listingUrl b name)))) none none,
       [Req.openUrl (listingUrl b name)]) := by
  by_cases hn : name = ""
  · subst hn
    simp [get_folder, find_in_cache, findFolderStep, optTruthy, get_folder_fetch,
      ensureLogin, hli, hb, hmark]
  · simp [get_folder, find_in_cache, findFolderStep, optTruthy, hn, hmiss,
      get_folder_fetch, ensureLogin, hli, hb, hmark]

/-- One-page listing for folder `H`: indicator `1 of 1`, no next-page link. -/
def pageOf1 : Page := { links := [emlLink "/h/z.EML"], body := "1&nbsp;of&nbsp;1" }

/-- Stub environment serving the one-page folder `H`. -/
def envOf1 : Env := mkEnv [(listingUrl "B/" "H", pageOf1)]

/-- Witness for C4 (amended): a listing reporting `1 of 1` is returned whole
with one contents request and no next-page request. -/
theorem get_folder_marker_single_page_witness :
    get_folder envOf1 3 sLogged "H" false =
      (Except.ok (emlUrls (envOf1.openPage (listingUrl "B/" "H"))),
       add_to_cache sLogged (some "H")
         (some (emlUrls (envOf1.openPage (listingUrl "B/" "H")))) none none,
       [Req.openUrl (listingUrl "B/" "H")]) :=
  get_folder_marker_single_page envOf1 3 sLogged "H" "B/" (by rfl) (by rfl) (by rfl) (by rfl)

/-- First listing page of folder `G`: the indicator reports page 1 of 10 and
a next-page link is present. -/
def pageOf10 : Page :=
  { links := [emlLink "/g/x.EML", nextLink "m2"], body := "1&nbsp;of&nbsp;10" }

/-- Second listing page of folder `G`, reachable from the next-page link. -/
def pageOf10b : Page :=
  { links := [emlLink "/g/y.EML", nextLink "m3"], body := "2&nbsp;of&nbsp;10" }

/-- Stub environment serving the ten-page folder `G`. -/
def envOf10 : Env := mkEnv [(listingUrl "B/" "G", pageOf10), ("m2", pageOf10b)]

/-- C4 counterexample: the indicator says `1 of 10` — more than one page, and
a further page with more messages exists — yet `get_folder` performs zero
next-page requests and returns only the first page, because the test
`'&nbsp;of&nbsp;1' in body` also matches `...of&nbsp;10`.  Pagination does
not start exactly when the indicator says more than one page. -/
theorem get_folder_of10_no_pagination_cex :
    get_folder envOf10 5 sLogged "G" false =
      (Except.ok ["/g/x.EML"],
       { sLogged with folder_cache := [("G", ["/g/x.EML"])] },
       [Req.openUrl "B/G/?Cmd=contents"]) ∧
    strContains pageOf10.body singlePageMarker = true :=
  ⟨by rfl, by rfl⟩

/-- C5: when the post-login page carries the provider's failure marker,
`login()` raises `InvalidLogin` and leaves the scraper unchanged — in
particular `is_logged_in` stays `false` — and a subsequent operation
(here `get_folder` with refresh) attempts the login again (issuing the login
requests) instead of assuming a logged-in session, propagating the same
`InvalidLogin`. -/
theorem login_failure_marker_stays_logged_out (env : Env) (fuel : Nat)
    (s : OutlookWebScraper) (name : String)
    (hmark : strContains env.loginResponse.body loginFailMarker = true)
    (hli : s.is_logged_in = false) :
    login env s =
      (Except.error Err.invalidLogin, s,
       [Req.openUrl (urljoin s.domain "exchange/"), Req.formSubmit]) ∧
    s.is_logged_in = false ∧
    get_folder env fuel s name true =
      (Except.error Err.invalidLogin, s,
       [Req.openUrl (urljoin s.domain "exchange/"), Req.formSubmit]) := by
  refine ⟨?_, hli, ?_⟩
  · simp [login, hmark]
  · simp [get_folder, get_folder_fetch, ensureLogin, hli, login, hmark]

/-- A stub environment whose login form submission lands on the provider's
failure page. -/
def envBadLogin : Env :=
  { envEmpty with loginResponse := { links := [], body := loginFailMarker } }

/-- Witness for C5 at a fresh scraper with bad credentials. -/
theorem login_failure_marker_stays_logged_out_witness :
    login envBadLogin (mkScraper "d/" "u" "pw") =
      (Except.error Err.invalidLogin, mkScraper "d/" "u" "pw",
       [Req.openUrl (urljoin "d/" "exchange/"), Req.formSubmit]) :=
  (login_failure_marker_stays_logged_out envBadLogin 1 (mkScraper "d/" "u" "pw")
    "Inbox" (by rfl) (by rfl)).1

/-- Looking a key up after erasing it finds nothing. -/
theorem dictFind_erase_self {β : Type} (d : List (String × β)) (k : String) :
    dictFind (dictErase d k) k = none := by
  induction d with
  | nil => rfl
  | cons e rest ih =>
    obtain ⟨k1, v⟩ := e
    by_cases h : k1 = k
    · simp [dictErase, h, ih]
    · simp [dictErase, dictFind, h, ih]

/-- Erasing one key leaves lookups of other keys unchanged. -/
theorem dictFind_erase_ne {β : Type} (d : List (String × β)) (k k2 : String)
    (h : k2 ≠ k) : dictFind (dictErase d k) k2 = dictFind d k2 := by
  induction d with
  | nil => rfl
  | cons e rest ih =>
    obtain ⟨k1, v⟩ := e
    by_cases h1 : k1 = k
    · subst h1
      simp [dictErase, dictFind, ih, Ne.symm h]
    · simp [dictErase, dictFind, h1, ih]

/-- Erasing never makes an absent key present. -/
theorem dictFind_none_erase {β : Type} (d : List (String × β)) (k k2 : String)
    (h : dictFind d k2 = none) : dictFind (dictErase d k) k2 = none := by
  by_cases hk : k2 = k
  · subst hk
    exact dictFind_erase_self d k2
  · rw [dictFind_erase_ne d k k2 hk]
    exact h

/-- A key absent before a sequence of erasures is absent after it. -/
theorem foldl_erase_none (l : List String) :
    ∀ (mc : List (String × String)) (k : String), dictFind mc k = none →
      dictFind (l.foldl dictErase mc) k = none := by
  induction l with
  | nil => intro mc k h; exact h
  | cons hd t ih =>
    intro mc k h
    exact ih (dictErase mc hd) k (dictFind_none_erase mc hd k h)

/-- Every key in the erased list is absent after the erasures. -/
theorem foldl_erase_mem (l : List String) :
    ∀ (mc : List (String × String)) (id : String), id ∈ l →
      dictFind (l.foldl dictErase mc) id = none := by
  induction l with
  | nil => intro mc id h; cases h
  | cons hd t ih =>
    intro mc id h
    rcases List.mem_cons.mp h with h1 | h2
    · subst h1
      exact foldl_erase_none t (dictErase mc id) id (dictFind_erase_self mc id)
    · exact ih (dictErase mc hd) id h2

/-- Keys outside the erased list are looked up as before. -/
theorem foldl_erase_not_mem (l : List String) :
    ∀ (mc : List (String × String)) (k : String), k ∉ l →
      dictFind (l.foldl dictErase mc) k = dictFind mc k := by
  induction l with
  | nil => intro mc k _; rfl
  | cons hd t ih =>
    intro mc k h
    rw [List.foldl_cons, ih (dictErase mc hd) k (fun hh => h (List.mem_cons_of_mem hd hh)),
      dictFind_erase_ne mc hd k (fun hh => h (hh ▸ List.mem_cons_self hd t))]

/-- The message-deletion loop succeeds and erases exactly the listed ids when
they are distinct and all present. -/
theorem delAllMsgs_ok (l : List String) :
    ∀ (mc : List (String × String)), l.Nodup →
      (∀ id ∈ l, (dictFind mc id).isSome = true) →
      delAllMsgs mc l = Except.ok (l.foldl dictErase mc) := by
  induction l with
  | nil => intro mc _ _; rfl
  | cons hd t ih =>
    intro mc hnd hall
    obtain ⟨v, hv⟩ := Option.isSome_iff_exists.mp (hall hd (List.mem_cons_self hd t))
    have ht : ∀ id ∈ t, (dictFind (dictErase mc hd) id).isSome = true := by
      intro id hid
      rw [dictFind_erase_ne mc hd id]
      · exact hall id (List.mem_cons_of_mem hd hid)
      · intro hh
        exact (List.nodup_cons.mp hnd).1 (hh ▸ hid)
    simp [delAllMsgs, hv, ih (dictErase mc hd) (List.nodup_cons.mp hnd).2 ht]

/-- The message-deletion loop raises `KeyError` whenever some listed id is
absent from the message cache. -/
theorem delAllMsgs_absent (l : List String) :
    ∀ (mc : List (String × String)) (id : String), id ∈ l →
      dictFind mc id = none → delAllMsgs mc l = Except.error Err.keyError := by
  induction l with
  | nil => intro mc id h; cases h
  | cons hd t ih =>
    intro mc id hmem hnone
    cases hfind : dictFind mc hd with
    | none => simp [delAllMsgs, hfind]
    | some v =>
      have hne : id ≠ hd := by
        intro hh
        rw [hh, hfind] at hnone
        cases hnone
      have hmem2 : id ∈ t := by
        rcases List.mem_cons.mp hmem with h1 | h2
        · exact absurd h1 hne
        · exact h2
      simp [delAllMsgs, hfind,
        ih (dictErase mc hd) id hmem2 (dictFind_none_erase mc hd id hnone)]

/-- C6 (amended): `remove_from_cache` called with a folder name removes the
entry and every MessageId it referenced and returns true — but only when the
cached listing is non-empty, its ids are distinct and every referenced id is
present in the message cache.  When some referenced id is absent, the
unchecked `del` raises `KeyError` instead of completing. -/
theorem remove_from_cache_folder_contract :
    (∀ (s : OutlookWebScraper) (f : String) (l : List String),
      f ≠ "" → dictFind s.folder_cache f = some l → l ≠ [] → l.Nodup →
      (∀ id ∈ l, (dictFind s.message_cache id).isSome = true) →
      remove_from_cache s (some f) none =
        Except.ok (true,
          { s with folder_cache := dictErase s.folder_cache f,
                   message_cache := l.foldl dictErase s.message_cache }) ∧
      (∀ id ∈ l, dictFind (l.foldl dictErase s.message_cache) id = none) ∧
      (∀ k, k ∉ l → dictFind (l.foldl dictErase s.message_cache) k
          = dictFind s.message_cache k)) ∧
    (∀ (s : OutlookWebScraper) (f id : String) (l : List String),
      f ≠ "" → dictFind s.folder_cache f = some l → l ≠ [] →
      id ∈ l → dictFind s.message_cache id = none →
      remove_from_cache s (some f) none = Except.error Err.keyError) := by
  constructor
  · intro s f l hfn hf hl hnd hall
    refine ⟨?_, fun id hid => foldl_erase_mem l s.message_cache id hid,
      fun k hk => foldl_erase_not_mem l s.message_cache k hk⟩
    simp [remove_from_cache, removeFolderStep, find_in_cache, findFolderStep,
      optTruthy, hfn, hf, hl, delAllMsgs_ok l s.message_cache hnd hall]
  · intro s f id l hfn hf hl hid hnone
    simp [remove_from_cache, removeFolderStep, find_in_cache, findFolderStep,
      optTruthy, hfn, hf, hl, delAllMsgs_absent l s.message_cache id hid hnone]

/-- Witness for C6 (amended) at a concrete state whose folder entry and
message-cache contents line up. -/
theorem remove_from_cache_folder_contract_witness :
    remove_from_cache sDel (some "F") none =
      Except.ok (true,
        { sDel with folder_cache := dictErase sDel.folder_cache "F",
                    message_cache := ["/f/m1.EML"].foldl dictErase sDel.message_cache }) :=
  (remove_from_cache_folder_contract.1 sDel "F" ["/f/m1.EML"] (by decide) (by rfl)
    (by decide) (by decide) (by decide)).1

/-- A logged-in scraper with a cached folder listing whose referenced message
id is absent from the message cache. -/
def sNoMsg : OutlookWebScraper := { sLogged with folder_cache := [("F", ["/f/m1.EML"])] }

/-- C6 counterexample: invalidating a folder whose referenced id is absent
from the message cache does NOT complete without error — the unchecked
`del self.message_cache[id]` raises `KeyError`. -/
theorem remove_from_cache_keyerror_cex :
    remove_from_cache sNoMsg (some "F") none = Except.error Err.keyError := by
  rfl

/-- `login` never touches the folder cache, on any of its outcomes. -/
theorem login_folder_cache (env : Env) (s : OutlookWebScraper) :
    (login env s).2.1.folder_cache = s.folder_cache := by
  unfold login
  split
  · rfl
  · split
    · rfl
    · split
      · rfl
      · rfl

/-- The login-if-needed preamble never touches the folder cache. -/
theorem ensureLogin_folder_cache (env : Env) (s : OutlookWebScraper) :
    (ensureLogin env s).2.1.folder_cache = s.folder_cache := by
  unfold ensureLogin
  split
  · rfl
  · exact login_folder_cache env s

/-- The network part of `get_folder` either leaves the folder cache exactly
as it was, or succeeds: the cache entry is written only on full success. -/
theorem gff_uncached_or_ok (env : Env) (fuel : Nat) (s : OutlookWebScraper)
    (name : String) :
    (get_folder_fetch env fuel s name).2.1.folder_cache = s.folder_cache ∨
    ∃ urls, (get_folder_fetch env fuel s name).1 = Except.ok urls := by
  unfold get_folder_fetch
  split
  next e s1 tr hEL =>
    left
    have h2 := ensureLogin_folder_cache env s
    rw [hEL] at h2
    exact h2
  next u s1 tr hEL =>
    have h2 : s1.folder_cache = s.folder_cache := by
      have h3 := ensureLogin_folder_cache env s
      rw [hEL] at h3
      exact h3
    split
    next hB => left; exact h2
    next b hB =>
      dsimp only
      split
      next hm => right; exact ⟨_, rfl⟩
      next hm =>
        split
        next e tr2 hP => left; exact h2
        next urls tr2 hP => right; exact ⟨_, rfl⟩

/-- `get_folder` either leaves the folder cache exactly as it was, or
succeeds. -/
theorem get_folder_uncached_or_ok (env : Env) (fuel : Nat) (s : OutlookWebScraper)
    (name : String) (refresh : Bool) :
    (get_folder env fuel s name refresh).2.1.folder_cache = s.folder_cache ∨
    ∃ urls, (get_folder env fuel s name refresh).1 = Except.ok urls := by
  unfold get_folder
  split
  · exact gff_uncached_or_ok env fuel s name
  · split
    next l hfind =>
      split
      next hl => exact gff_uncached_or_ok env fuel s name
      next hl => right; exact ⟨_, rfl⟩
    next hfind => exact gff_uncached_or_ok env fuel s name

/-- C7 (amended): when the expected next-page link is absent during
pagination, `get_folder` fails with an `IndexError` (the raw `[0]` on an
empty link list — not a `RetrievalError`), and on every failing outcome of
`get_folder` the folder cache is left exactly as it was: the entry is written
only on full, successful completion of the traversal. -/
theorem get_folder_pagination_failure_contract :
    (∀ (env : Env) (fuel : Nat) (s : OutlookWebScraper) (name b : String),
      s.is_logged_in = true → s.base_href = some b →
      dictFind s.folder_cache name = none →
      strContains (env.openPage (listingUrl b name)).body singlePageMarker = false →
      nextPageUrls (env.openPage (listingUrl b name)) = [] →
      get_folder env (fuel + 1) s name false =
        (Except.error Err.indexError, s, [Req.openUrl (listingUrl b name)])) ∧
    (∀ (env : Env) (fuel : Nat) (s : OutlookWebScraper) (name : String)
      (refresh : Bool) (e : Err),
      (get_folder env fuel s name refresh).1 = Except.error e →
      (get_folder env fuel s name refresh).2.1.folder_cache = s.folder_cache) := by
  constructor
  · intro env fuel s name b hli hb hmiss hmark hnext
    by_cases hn : name = ""
    · subst hn
      simp [get_folder, find_in_cache, findFolderStep, optTruthy, get_folder_fetch,
        ensureLogin, pageLoop, hli, hb, hmark, hnext]
    · simp [get_folder, find_in_cache, findFolderStep, optTruthy, hn, hmiss,
        get_folder_fetch, ensureLogin, pageLoop, hli, hb, hmark, hnext]
  · intro env fuel s name refresh e h
    rcases get_folder_uncached_or_ok env fuel s name refresh with h1 | ⟨urls, h2⟩
    · exact h1
    · rw [h] at h2
      cases h2

/-- A listing page with one message, no single-page marker, and no next-page
link — broken pagination. -/
def pageNoNext : Page := { links := [emlLink "/h/a.EML"], body := "results" }

/-- Stub environment serving the broken-pagination folder `J`. -/
def envNoNext : Env := mkEnv [(listingUrl "B/" "J", pageNoNext)]

/-- Witness for C7 (amended) at the broken-pagination stub. -/
theorem get_folder_pagination_failure_contract_witness :
    get_folder envNoNext 3 sLogged "J" false =
      (Except.error Err.indexError, sLogged, [Req.openUrl (listingUrl "B/" "J")]) :=
  get_folder_pagination_failure_contract.1 envNoNext 2 sLogged "J" "B/"
    (by rfl) (by rfl) (by rfl) (by rfl) (by rfl)

/-- C7 counterexample: with the next-page link absent, `get_folder` raises
`IndexError`, which is a different exception from the `RetrievalError` the
claim names; the accumulated page is indeed left un-cached. -/
theorem get_folder_indexerror_not_retrieval_cex :
    (get_folder envNoNext 4 sLogged "J" false).1 = Except.error Err.indexError ∧
    Err.indexError ≠ Err.retrievalError ∧
    (get_folder envNoNext 4 sLogged "J" false).2.1.folder_cache = [] :=
  ⟨by rfl, by decide, by rfl⟩

/-- C8 (amended): the folder cache key is case-SENSITIVE — store and lookup
both use the exact string given.  With some folder cached under `n1`, a
request for any different name `n2` (for example another casing of the same
folder) is not served from that entry: a network fetch happens and its result
is stored as a second, separate entry under `n2`, leaving the `n1` entry in
place. -/
theorem get_folder_case_sensitive_key (env : Env) (fuel : Nat)
    (s : OutlookWebScraper) (n1 n2 b : String) (l1 : List String)
    (hfc : s.folder_cache = [(n1, l1)]) (hne : n1 ≠ n2) (hn2 : n2 ≠ "")
    (hli : s.is_logged_in = true) (hb : s.base_href = some b)
    (hmark : strContains (env.openPage (listingUrl b n2)).body singlePageMarker = true) :
    get_folder env fuel s n2 false =
      (Except.ok (emlUrls (env.openPage (listingUrl b n2))),
       { s with folder_cache :=
           [(n1, l1), (n2, emlUrls (env.openPage (listingUrl b n2)))] },
       [Req.openUrl (listingUrl b n2)]) := by
  simp [get_folder, find_in_cache, findFolderStep, optTruthy, hn2, hfc, hne,
    dictFind, get_folder_fetch, ensureLogin, hli, hb, hmark, add_to_cache,
    dictInsert]

/-- A logged-in scraper with folder `Inbox` cached under that exact casing. -/
def sInboxUpper : OutlookWebScraper :=
  { sLogged with folder_cache := [("Inbox", ["/Inbox/old.EML"])] }

/-- One-page listing served for the lower-case spelling `inbox`. -/
def pageLowerInbox : Page :=
  { links := [emlLink "/inbox/new.EML"], body := "1&nbsp;of&nbsp;1" }

/-- Stub environment serving the lower-case listing URL. -/
def envLowerInbox : Env := mkEnv [(listingUrl "B/" "inbox", pageLowerInbox)]

/-- Witness for C8 (amended) at the two casings of the inbox folder. -/
theorem get_folder_case_sensitive_key_witness :
    get_folder envLowerInbox 5 sInboxUpper "inbox" false =
      (Except.ok (emlUrls (envLowerInbox.openPage (listingUrl "B/" "inbox"))),
       { sInboxUpper with folder_cache :=
           [("Inbox", ["/Inbox/old.EML"]),
            ("inbox", emlUrls (envLowerInbox.openPage (listingUrl "B/" "inbox")))] },
       [Req.openUrl (listingUrl "B/" "inbox")]) :=
  get_folder_case_sensitive_key envLowerInbox 5 sInboxUpper "Inbox" "inbox" "B/"
    ["/Inbox/old.EML"] (by rfl) (by decide) (by decide) (by rfl) (by rfl) (by rfl)

/-- C8 counterexample: with `Inbox` cached, `get_folder("inbox",
refresh=false)` is NOT served from the same cache entry — it issues a network
request, returns the freshly fetched listing rather than the cached one, and
stores a second cache entry under the other casing. -/
theorem get_folder_case_insensitive_cex :
    get_folder envLowerInbox 5 sInboxUpper "inbox" false =
      (Except.ok ["/inbox/new.EML"],
       { sInboxUpper with folder_cache :=
           [("Inbox", ["/Inbox/old.EML"]), ("inbox", ["/inbox/new.EML"])] },
       [Req.openUrl "B/inbox/?Cmd=contents"]) ∧
    (["/inbox/new.EML"] : List String) ≠ ["/Inbox/old.EML"] ∧
    ([Req.openUrl "B/inbox/?Cmd=contents"] : List Req) ≠ [] :=
  ⟨by rfl, by decide, by decide⟩

/-- The session invariant: a scraper that believes it is logged in has a
base href. -/
def SessionInv (s : OutlookWebScraper) : Prop :=
  s.is_logged_in = true → s.base_href ≠ none

theorem optTruthy_ne_none (o : Option String) (h : optTruthy o = true) : o ≠ none := by
  cases o with
  | none => cases h
  | some x => intro hh; cases hh

theorem sessionInv_of_flags (s1 s2 : OutlookWebScraper)
    (h1 : s2.is_logged_in = s1.is_logged_in) (h2 : s2.base_href = s1.base_href)
    (h : SessionInv s1) : SessionInv s2 := by
  intro hl
  rw [h2]
  exact h (h1 ▸ hl)

theorem sessionInv_login (env : Env) (s : OutlookWebScraper) (h : SessionInv s) :
    SessionInv (login env s).2.1 := by
  unfold login
  split
  · exact h
  · split
    · exact h
    · rename_i m mtail mheq
      dsimp only
      split
      next hopt =>
        intro _
        exact optTruthy_ne_none m.base_url hopt
      next hopt => exact h

theorem sessionInv_ensure (env : Env) (s : OutlookWebScraper) (h : SessionInv s) :
    SessionInv (ensureLogin env s).2.1 := by
  unfold ensureLogin
  split
  · exact h
  · exact sessionInv_login env s h

theorem add_to_cache_is_logged_in (s : OutlookWebScraper) (fn : Option String)
    (mu : Option (List String)) (mi p : Option String) :
    (add_to_cache s fn mu mi p).is_logged_in = s.is_logged_in := by
  unfold add_to_cache
  split
  · rfl
  · split
    · rfl
    · rfl

theorem add_to_cache_base_href (s : OutlookWebScraper) (fn : Option String)
    (mu : Option (List String)) (mi p : Option String) :
    (add_to_cache s fn mu mi p).base_href = s.base_href := by
  unfold add_to_cache
  split
  · rfl
  · split
    · rfl
    · rfl

theorem sessionInv_add (s : OutlookWebScraper) (fn : Option String)
    (mu : Option (List String)) (mi p : Option String) (h : SessionInv s) :
    SessionInv (add_to_cache s fn mu mi p) :=
  sessionInv_of_flags s _ (add_to_cache_is_logged_in s fn mu mi p)
    (add_to_cache_base_href s fn mu mi p) h

theorem sessionInv_gff (env : Env) (fuel : Nat) (s : OutlookWebScraper)
    (name : String) (h : SessionInv s) :
    SessionInv (get_folder_fetch env fuel s name).2.1 := by
  have hE := sessionInv_ensure env s h
  unfold get_folder_fetch
  split
  next e s1 tr hEL =>
    rw [hEL] at hE
    exact hE
  next u s1 tr hEL =>
    rw [hEL] at hE
    split
    next hB => exact hE
    next b hB =>
      dsimp only
      split
      next hm => exact sessionInv_add s1 _ _ _ _ hE
      next hm =>
        split
        next e tr2 hP => exact hE
        next urls tr2 hP => exact sessionInv_add s1 _ _ _ _ hE

theorem sessionInv_get_folder (env : Env) (fuel : Nat) (s : OutlookWebScraper)
    (name : String) (refresh : Bool) (h : SessionInv s) :
    SessionInv (get_folder env fuel s name refresh).2.1 := by
  unfold get_folder
  split
  · exact sessionInv_gff env fuel s name h
  · split
    next l hfind =>
      split
      next hl => exact sessionInv_gff env fuel s name h
      next hl => exact h
    next hfind => exact sessionInv_gff env fuel s name h

theorem sessionInv_inbox (env : Env) (fuel : Nat) (s : OutlookWebScraper)
    (refresh : Bool) (h : SessionInv s) :
    SessionInv (inbox env fuel s refresh).2.1 := by
  unfold inbox
  split
  · exact sessionInv_get_folder env fuel s "Inbox" true h
  · exact sessionInv_get_folder env fuel s "Inbox" false h

theorem sessionInv_gmf (env : Env) (s : OutlookWebScraper) (msgid : String)
    (h : SessionInv s) : SessionInv (get_message_fetch env s msgid).2.1 := by
  have hE := sessionInv_ensure env s h
  unfold get_message_fetch
  split
  next e s1 tr hEL =>
    rw [hEL] at hE
    exact hE
  next u s1 tr hEL =>
    rw [hEL] at hE
    split
    next hB => exact hE
    next b hB =>
      dsimp only
      exact sessionInv_add s1 _ _ _ _ hE

theorem sessionInv_get_message (env : Env) (s : OutlookWebScraper) (msgid : String)
    (h : SessionInv s) : SessionInv (get_message env s msgid).2.1 := by
  unfold get_message
  split
  next p hfind =>
    split
    next hp => exact sessionInv_gmf env s msgid h
    next hp => exact h
  next hfind => exact sessionInv_gmf env s msgid h

theorem removeFolderStep_flags (s : OutlookWebScraper) (fn : Option String)
    (o : Bool × OutlookWebScraper) (h : removeFolderStep s fn = Except.ok o) :
    o.2.is_logged_in = s.is_logged_in ∧ o.2.base_href = s.base_href := by
  unfold removeFolderStep at h
  split at h
  · split at h
    next l =>
      split at h
      next hl =>
        injection h with h2
        rw [← h2]
        exact ⟨rfl, rfl⟩
      next hl =>
        split at h
        · cases h
        next mc hdel =>
          injection h with h2
          rw [← h2]
          exact ⟨rfl, rfl⟩
    next hother =>
      injection h with h2
      rw [← h2]
      exact ⟨rfl, rfl⟩
  · injection h with h2
    rw [← h2]
    exact ⟨rfl, rfl⟩

theorem remove_from_cache_flags (s : OutlookWebScraper) (fn mi : Option String)
    (o : Bool × OutlookWebScraper) (h : remove_from_cache s fn mi = Except.ok o) :
    o.2.is_logged_in = s.is_logged_in ∧ o.2.base_href = s.base_href := by
  unfold remove_from_cache at h
  dsimp only at h
  split at h
  · split at h
    · split at h
      · have h4 := removeFolderStep_flags _ fn o h
        exact h4
      · injection h with h2
        rw [← h2]
        exact ⟨rfl, rfl⟩
    · split at h
      · exact removeFolderStep_flags s fn o h
      · injection h with h2
        rw [← h2]
        exact ⟨rfl, rfl⟩
  · split at h
    · exact removeFolderStep_flags s fn o h
    · injection h with h2
      rw [← h2]
      exact ⟨rfl, rfl⟩

theorem sessionInv_delete (env : Env) (s : OutlookWebScraper) (msgid : String)
    (h : SessionInv s) : SessionInv (delete_message env s msgid).2.1 := by
  have hE := sessionInv_ensure env s h
  unfold delete_message
  split
  next e s1 tr hEL =>
    rw [hEL] at hE
    exact hE
  next u s1 tr hEL =>
    rw [hEL] at hE
    try dsimp only
    split
    next hB => exact hE
    next b hB =>
      try dsimp only
      split
      next e hrem => exact hE
      next bb s2 hrem =>
        have hf := remove_from_cache_flags s1 none _ (bb, s2) hrem
        exact sessionInv_of_flags s1 s2 hf.1 hf.2 hE

theorem sessionInv_flush (s : OutlookWebScraper) (h : SessionInv s) :
    SessionInv (flush_cache s).2 := by
  intro hl
  exact h hl

/-- One public operation of the scraper, performed against an arbitrary
environment: the state-transition relation of the object. -/
inductive Step : OutlookWebScraper → OutlookWebScraper → Prop where
  | loginStep (env : Env) (s : OutlookWebScraper) : Step s (login env s).2.1
  | inboxStep (env : Env) (fuel : Nat) (s : OutlookWebScraper) (refresh : Bool) :
      Step s (inbox env fuel s refresh).2.1
  | getFolderStep (env : Env) (fuel : Nat) (s : OutlookWebScraper)
      (name : String) (refresh : Bool) : Step s (get_folder env fuel s name refresh).2.1
  | getMessageStep (env : Env) (s : OutlookWebScraper) (msgid : String) :
      Step s (get_message env s msgid).2.1
  | deleteStep (env : Env) (s : OutlookWebScraper) (msgid : String) :
      Step s (delete_message env s msgid).2.1
  | flushStep (s : OutlookWebScraper) : Step s (flush_cache s).2

/-- Every state reachable from a fresh scraper by public operations
satisfies the session invariant. -/
theorem reachable_sessionInv (d u p : String) (s : OutlookWebScraper)
    (h : Relation.ReflTransGen Step (mkScraper d u p) s) : SessionInv s := by
  induction h with
  | refl =>
    intro hh
    simp [mkScraper] at hh
  | tail hab hbc ih =>
    cases hbc with
    | loginStep env => exact sessionInv_login _ _ ih
    | inboxStep env fuel refresh => exact sessionInv_inbox _ _ _ _ ih
    | getFolderStep env fuel name refresh => exact sessionInv_get_folder _ _ _ _ _ ih
    | getMessageStep env msgid => exact sessionInv_get_message _ _ _ ih
    | deleteStep env msgid => exact sessionInv_delete _ _ _ ih
    | flushStep => exact sessionInv_flush _ ih

/-- C9: in every scraper state reachable from the constructor by any
sequence of public operations (against arbitrary environments),
`is_logged_in = true` implies that `base_href` is set: the constructor
starts with both unset, `login` assigns a truthy base href in the same
branch that sets the flag, every failing path leaves both unchanged, and no
other operation writes either field. -/
theorem reachable_logged_in_has_base (d u p : String) (s : OutlookWebScraper)
    (h : Relation.ReflTransGen Step (mkScraper d u p) s)
    (hl : s.is_logged_in = true) : s.base_href ≠ none :=
  reachable_sessionInv d u p s h hl

/-- A stub environment whose login form submission succeeds: the landing page
has a first link with a resolvable base URL. -/
def envGoodLogin : Env :=
  { envEmpty with loginResponse :=
      { links := [{ url := "x", text := "home", base_url := some "B/" }],
        body := "welcome" } }

/-- Witness for C9 at the state reached by one successful login. -/
theorem reachable_logged_in_has_base_witness :
    ((login envGoodLogin (mkScraper "d/" "u" "pw")).2.1).base_href ≠ none :=
  reachable_logged_in_has_base "d/" "u" "pw" _
    (Relation.ReflTransGen.single (Step.loginStep envGoodLogin (mkScraper "d/" "u" "pw")))
    (by rfl)

/-- C10: a message id with a non-empty cached payload is served by
`get_message` straight from the cache: the payload is returned, the scraper
state (session flags and both caches) is returned unchanged, and no network
request — in particular no login — is issued.  No assumption is made on
`is_logged_in`, so this holds for a logged-out scraper too. -/
theorem get_message_cache_hit_frame (env : Env) (s : OutlookWebScraper)
    (msgid p : String) (hm : msgid ≠ "")
    (hp : dictFind s.message_cache msgid = some p) (hpne : p ≠ "") :
    get_message env s msgid = (Except.ok p, s, []) := by
  simp [get_message, find_in_cache, optTruthy, hm, hp, hpne]

/-- A logged-out, never-logged-in scraper with one cached message payload. -/
def sMsgCachedLoggedOut : OutlookWebScraper :=
  { mkScraper "d/" "u" "pw" with message_cache := [("m1", "raw")] }

/-- Witness for C10 on a logged-out scraper. -/
theorem get_message_cache_hit_frame_witness :
    get_message envEmpty sMsgCachedLoggedOut "m1" =
      (Except.ok "raw", sMsgCachedLoggedOut, []) ∧
    sMsgCachedLoggedOut.is_logged_in = false :=
  ⟨get_message_cache_hit_frame envEmpty sMsgCachedLoggedOut "m1" "raw"
    (by decide) (by rfl) (by decide), by rfl⟩
